import Mathlib

/-!
Verification development for the Adobe Auto Checkout extension.

The JavaScript sources are shallowly embedded as Lean functions:
strings become `List Char`, the random source (`Math.random`) becomes an
explicit stream `r : Nat → Nat` consumed at successive indices, the clock
becomes explicit `(curYear, curMonth)` parameters, and the DOM is an
abstract observation function.  Effectful orchestration code becomes
explicit state passing over record types mirroring the script state and
`chrome.storage.local` contents.
-/

/-! ## Card generator (lib/cc-generator.js) -/

/-- The ten decimal digit characters. -/
def digitChars : List Char := ['0', '1', '2', '3', '4', '5', '6', '7', '8', '9']

/-- Embeds `Math.floor(Math.random() * 10).toString()`: the stream value is
reduced mod 10 and rendered as a digit character (`CCGenerator.randomDigit`). -/
def digitChar (n : Nat) : Char :=
  match n % 10 with
  | 0 => '0' | 1 => '1' | 2 => '2' | 3 => '3' | 4 => '4'
  | 5 => '5' | 6 => '6' | 7 => '7' | 8 => '8' | _ => '9'

/-- Embeds `parseInt(c, 10)` for a single digit character. -/
def charToDigit (c : Char) : Nat := c.toNat - 48

/-- Doubling step of the Luhn sum: `digit *= 2; if (digit > 9) digit -= 9`. -/
def luhnDouble (d : Nat) : Nat := if d * 2 > 9 then d * 2 - 9 else d * 2

/-- The Luhn sum loop of `calculateLuhnCheckDigit`, processing characters
from the rightmost one (the input here is already reversed), with the
`isOdd` flag starting `true` and toggling each step. -/
def luhnSumRev : List Char → Bool → Nat
  | [], _ => 0
  | c :: rest, odd =>
    (if odd then luhnDouble (charToDigit c) else charToDigit c) + luhnSumRev rest (!odd)

/-- `CCGenerator.calculateLuhnCheckDigit`: Luhn check digit of a card number
without its last digit. -/
def calculateLuhnCheckDigit (s : List Char) : Nat :=
  (10 - luhnSumRev s.reverse true % 10) % 10

/-- `CCGenerator.validateLuhn`: strip non-digits, require length 13..19, and
compare the recomputed check digit with the last digit. -/
def validateLuhn (cardNumber : List Char) : Bool :=
  let digits := cardNumber.filter Char.isDigit
  if digits.length < 13 || digits.length > 19 then false
  else calculateLuhnCheckDigit digits.dropLast == charToDigit (digits.getLastD '0')

/-- The `binPattern.toLowerCase().replace(/x/g, () => this.randomDigit())`
step of `generateCardNumber`: every `'x'` (input is already lower-cased)
is replaced by the next random digit; `k` is the next unused stream index. -/
def replaceWildcards (r : Nat → Nat) : List Char → Nat → List Char × Nat
  | [], k => ([], k)
  | c :: rest, k =>
    if c = 'x' then
      let res := replaceWildcards r rest (k + 1)
      (digitChar (r k) :: res.1, res.2)
    else
      let res := replaceWildcards r rest k
      (c :: res.1, res.2)

/-- Appends `n` random digits, consuming the stream from index `k`; this is
the `while (cardDigits.length < length - 1)` padding loop of
`generateCardNumber`, with `n` precomputed as the shortfall. -/
def padGo (r : Nat → Nat) : Nat → List Char → Nat → List Char × Nat
  | 0, s, k => (s, k)
  | n + 1, s, k => padGo r n (s ++ [digitChar (r k)]) (k + 1)

/-- `CCGenerator.generateCardNumber`: replace wildcards, pad with random
digits up to `length - 1`, trim to `length - 1`, then append the Luhn check
digit.  Returns the card digits and the next unused stream index. -/
def generateCardNumber (r : Nat → Nat) (binPattern : List Char) (length : Nat) (k : Nat) :
    List Char × Nat :=
  let rw := replaceWildcards r (binPattern.map Char.toLower) k
  let padded := padGo r (length - 1 - rw.1.length) rw.1 rw.2
  let cardDigits := padded.1.take (length - 1)
  (cardDigits ++ [digitChar (calculateLuhnCheckDigit cardDigits)], padded.2)

/-- JavaScript `String.prototype.trim` restricted to common whitespace. -/
def isWs (c : Char) : Bool := c = ' ' || c = '\t' || c = '\n' || c = '\r'

/-- Trim whitespace from both ends of a string. -/
def trimChars (s : List Char) : List Char :=
  ((s.dropWhile isWs).reverse.dropWhile isWs).reverse

/-- Result of `CCGenerator.parseBinInput`. -/
structure ParsedBin where
  bin : List Char
  month : Option (List Char)
  year : Option (List Char)
deriving DecidableEq, Repr

/-- `CCGenerator.parseBinInput`: split on `'|'`; `parts[1] ? parts[1].trim()
: null` maps an absent or empty part to `none`. -/
def parseBinInput (binInput : List Char) : ParsedBin :=
  let parts := binInput.splitOn '|'
  { bin := trimChars (parts.getD 0 [])
    month := match parts[1]? with
      | some p => if p.isEmpty then none else some (trimChars p)
      | none => none
    year := match parts[2]? with
      | some p => if p.isEmpty then none else some (trimChars p)
      | none => none }

/-- Card brands distinguished by `CCGenerator.detectCardType`. -/
inductive CardType where
  | visa | mastercard | amex | discover | jcb | unionpay | unknown
deriving DecidableEq, Repr

/-- Anchored test `/^5[1-5]/` on the BIN. -/
def testMastercard : List Char → Bool
  | '5' :: c :: _ => '1' ≤ c && c ≤ '5'
  | _ => false

/-- Anchored test `/^3[47]/` on the BIN. -/
def testAmex : List Char → Bool
  | '3' :: c :: _ => c = '4' || c = '7'
  | _ => false

/-- Anchored test `/^6(?:011|5)/` on the BIN. -/
def testDiscover : List Char → Bool
  | '6' :: '0' :: '1' :: '1' :: _ => true
  | '6' :: '5' :: _ => true
  | _ => false

/-- Anchored test `/^35(?:2[89]|[3-8])/` on the BIN. -/
def testJcb : List Char → Bool
  | '3' :: '5' :: '2' :: c :: _ => c = '8' || c = '9'
  | '3' :: '5' :: c :: _ => '3' ≤ c && c ≤ '8'
  | _ => false

/-- Anchored test `/^62/` on the BIN. -/
def testUnionpay : List Char → Bool
  | '6' :: '2' :: _ => true
  | _ => false

/-- `CCGenerator.detectCardType`: strip non-digits, take the first six
digits, and test brand prefixes in the source order. -/
def detectCardType (cardNumber : List Char) : CardType :=
  let bin := (cardNumber.filter Char.isDigit).take 6
  if bin.head? = some '4' then .visa
  else if testMastercard bin then .mastercard
  else if testAmex bin then .amex
  else if testDiscover bin then .discover
  else if testJcb bin then .jcb
  else if testUnionpay bin then .unionpay
  else .unknown

/-- Expiry record `{ month, year }` (both already formatted as strings). -/
structure Expiry where
  month : List Char
  year : List Char
deriving DecidableEq, Repr

/-- `String.prototype.padStart(2, '0')`. -/
def padStart2 (s : List Char) : List Char :=
  if 2 ≤ s.length then s
  else if s.length = 1 then '0' :: s
  else ['0', '0']

/-- `String.prototype.slice(-2)`: the last two characters. -/
def lastTwo (s : List Char) : List Char := s.drop (s.length - 2)

/-- Decimal rendering of a natural number (JavaScript `Number.toString`). -/
def natToChars (n : Nat) : List Char := Nat.toDigits 10 n

/-- A random draw strictly below `n` (`Math.floor(Math.random() * n)`);
`n = 0` yields 0 as in JavaScript. -/
def randBelow (v n : Nat) : Nat := if n = 0 then 0 else v % n

/-- `CCGenerator.generateExpiry` with the clock passed explicitly: a year 1-4
years ahead, a month 1-12 (bumped past the current month in the — actually
unreachable — same-year case), formatted as `MM` / last-two-digits. -/
def generateExpiry (r : Nat → Nat) (curYear curMonth : Nat) (k : Nat) : Expiry × Nat :=
  let futureYears := randBelow (r k) 4 + 1
  let year := curYear + futureYears
  let month0 := randBelow (r (k + 1)) 12 + 1
  let mk :=
    if year = curYear && month0 ≤ curMonth then
      (curMonth + randBelow (r (k + 2)) (12 - curMonth) + 1, k + 3)
    else (month0, k + 2)
  ({ month := padStart2 (natToChars mk.1), year := lastTwo (natToChars year) }, mk.2)

/-- The digit loop of `CCGenerator.generateCVV`. -/
def genCVVgo (r : Nat → Nat) : Nat → Nat → List Char × Nat
  | 0, k => ([], k)
  | n + 1, k =>
    let rest := genCVVgo r n (k + 1)
    (digitChar (r k) :: rest.1, rest.2)

/-- The global replace `/(\d{4})/g → '$1 '`: whenever four consecutive
digits match, a space is inserted after them and scanning resumes past the
match; otherwise the scan advances one character. -/
def groupDigits4 : List Char → List Char
  | a :: b :: c :: d :: rest =>
    if a.isDigit && b.isDigit && c.isDigit && d.isDigit then
      a :: b :: c :: d :: ' ' :: groupDigits4 rest
    else
      a :: groupDigits4 (b :: c :: d :: rest)
  | l => l

/-- The complete card record produced by `CCGenerator.generate`. -/
structure Card where
  cardNumber : List Char
  cardType : CardType
  expiry : Expiry
  cvv : List Char
  formattedNumber : List Char
  formattedExpiry : List Char
deriving DecidableEq, Repr

/-- `CCGenerator.generate`: parse the BIN input, generate the card number
(length 16), detect the brand, take the explicit expiry when both parts are
present and non-empty (JavaScript truthiness) or draw a random one, draw a
CVV (4 digits for AMEX, otherwise 3), and format the outputs. -/
def generate (r : Nat → Nat) (curYear curMonth : Nat) (binInput : List Char) : Card :=
  let parsed := parseBinInput binInput
  let cn := generateCardNumber r parsed.bin 16 0
  let cardNumber := cn.1
  let cardType := detectCardType cardNumber
  let exp : Expiry × Nat :=
    match parsed.month, parsed.year with
    | some m, some y =>
      if !m.isEmpty && !y.isEmpty then
        ({ month := padStart2 m, year := if y.length = 4 then lastTwo y else y }, cn.2)
      else generateExpiry r curYear curMonth cn.2
    | _, _ => generateExpiry r curYear curMonth cn.2
  let cvvLength := if cardType = CardType.amex then 4 else 3
  let cvv := (genCVVgo r cvvLength exp.2).1
  { cardNumber := cardNumber
    cardType := cardType
    expiry := exp.1
    cvv := cvv
    formattedNumber := trimChars (groupDigits4 cardNumber)
    formattedExpiry := exp.1.month ++ '/' :: exp.1.year }

/-! ## Waiter (content.js `waitForElement` / `waitForCondition`)

The DOM is abstracted as `dom : Nat → Option Elem`, the result of
`document.querySelector(selector)` at millisecond `t`.  `muts` is the list
of times at which the `MutationObserver` callback fires (ascending).  The
`cancelAt` parameter records when a `STOP_AUTOMATION` message arrives; the
scripts never consult `state.isRunning` inside a wait, so the embedded
bodies do not read it. -/

/-- A located DOM element; `offsetParent` is `none` when the element has no
rendered footprint (layout-suppressed). -/
structure Elem where
  eid : Nat
  offsetParent : Option Nat
deriving DecidableEq, Repr

/-- The readiness check `element && element.offsetParent !== null` applied
to the query result at time `t`. -/
def visibleAt (dom : Nat → Option Elem) (t : Nat) : Option Elem :=
  match dom t with
  | some e => if e.offsetParent.isSome then some e else none
  | none => none

/-- Poll times of the `while (Date.now() - startTime < timeout)` loop with
its 200 ms delay: `0, 200, 400, …` strictly below `timeout`. -/
def pollTimes (timeout : Nat) : List Nat :=
  (List.range ((timeout + 199) / 200)).map (· * 200)

/-- The body of the polling wait: check the query result at each poll time,
returning the first ready element, else the not-found error. -/
def pollLoop (sel : String) (dom : Nat → Option Elem) : List Nat → Except String Elem
  | [] => .error ("Element not found: " ++ sel)
  | t :: rest =>
    match visibleAt dom t with
    | some e => .ok e
    | none => pollLoop sel dom rest

/-- The polling `waitForElement` (content.js, interval variant). -/
def waitForElement (sel : String) (dom : Nat → Option Elem) (timeout : Nat) :
    Except String Elem :=
  pollLoop sel dom (pollTimes timeout)

/-- Mutation-driven re-checks: each callback at time `t` re-queries; the
`setTimeout` rejection fires at `timeout`, so only callbacks with
`t < timeout` can resolve the promise. -/
def obsLoop (sel : String) (dom : Nat → Option Elem) (timeout : Nat) :
    List Nat → Except String Elem
  | [] => .error ("Element not found: " ++ sel)
  | t :: rest =>
    if t < timeout then
      match visibleAt dom t with
      | some e => .ok e
      | none => obsLoop sel dom timeout rest
    else .error ("Element not found: " ++ sel)

/-- The MutationObserver `waitForElement` (content.js, observer variant):
an initial synchronous check, then observer callbacks until the timeout.
`cancelAt` is the arrival time of an external stop; the source installs no
cancellation hook, so the body ignores it. -/
def waitForElementObs (sel : String) (dom : Nat → Option Elem) (muts : List Nat)
    (timeout : Nat) (cancelAt : Option Nat) : Except String Elem :=
  match visibleAt dom 0 with
  | some e => .ok e
  | none => obsLoop sel dom timeout muts

/-- Observer re-checks of a boolean predicate for `waitForCondition`. -/
def condLoop (cond : Nat → Bool) (timeout : Nat) : List Nat → Except String Bool
  | [] => .error "Timeout waiting for condition"
  | t :: rest =>
    if t < timeout then
      if cond t then .ok true else condLoop cond timeout rest
    else .error "Timeout waiting for condition"

/-- `waitForCondition` (content.js, observer variant); `cancelAt` as in
`waitForElementObs` — unobserved by the source. -/
def waitForCondition (cond : Nat → Bool) (muts : List Nat) (timeout : Nat)
    (cancelAt : Option Nat) : Except String Bool :=
  if cond 0 then .ok true else condLoop cond timeout muts

/-! ## Cross-frame bridge (background.js) -/

/-- A frame descriptor from `Page.getFrameTree` (only the id matters to the
fill loop). -/
structure Frame where
  id : Nat
deriving DecidableEq, Repr

/-- The nested frame structure `{ frame, childFrames }`. -/
inductive FrameTree where
  | node (frame : Frame) (childFrames : List FrameTree)

mutual

/-- `getAllFrames`: the frame itself first, then all child subtrees in
order, each flattened recursively. -/
def getAllFrames : FrameTree → List Frame
  | .node f cs => f :: getAllFramesList cs

/-- The `for (const child of frameTree.childFrames)` accumulation. -/
def getAllFramesList : List FrameTree → List Frame
  | [] => []
  | t :: ts => getAllFrames t ++ getAllFramesList ts

end

/-- Outcome of `Runtime.evaluate` of the fill script in one frame: a thrown
command error (caught per frame), `{found:false}`, or `{found:true, value}`. -/
inductive EvalOutcome where
  | evalError (msg : String)
  | notFound
  | found (value : String)
deriving DecidableEq, Repr

/-- Whether the evaluation reported `{found: true}`. -/
def isFound : EvalOutcome → Bool
  | .found _ => true
  | _ => false

/-- The structured result value of `fillIframeField`. -/
structure FillResult where
  success : Bool
  frameId : Option Nat
  value : Option String
  error : Option String
deriving DecidableEq, Repr

/-- The per-frame loop of `fillIframeField`: evaluate the fill script in
each frame in order; return success at the first frame reporting `found`,
else the not-found failure.  Also returns the ids of the frames actually
attempted, in order. -/
def tryFrames (eval : Nat → EvalOutcome) : List Frame → FillResult × List Nat
  | [] => ({ success := false, frameId := none, value := none,
             error := some "Input not found in any frame" }, [])
  | f :: rest =>
    match eval f.id with
    | .found v => ({ success := true, frameId := some f.id, value := some v,
                     error := none }, [f.id])
    | _ =>
      let res := tryFrames eval rest
      (res.1, f.id :: res.2)

/-- `fillIframeField`: attach the debugger (a failure there is returned as
a structured `{success:false, error}`), flatten the frame tree, and try the
frames in order. -/
def fillIframeField (eval : Nat → EvalOutcome) (t : FrameTree) (attachOk : Bool) :
    FillResult × List Nat :=
  if attachOk then tryFrames eval (getAllFrames t)
  else ({ success := false, frameId := none, value := none,
          error := some "Failed to attach debugger" }, [])

/-- `attachDebugger`: guarded by the `debuggerSessions` map; already
attached → immediate success; otherwise attach (which can fail) and record
the session.  The session store is the list of attached tab ids. -/
def attachDebugger (sessions : List Nat) (tabId : Nat) (attachOk : Bool) :
    List Nat × Except String Unit :=
  if tabId ∈ sessions then (sessions, .ok ())
  else if attachOk then (tabId :: sessions, .ok ())
  else (sessions, .error "Failed to attach debugger")

/-- `detachDebugger`: drop the tab's session entry when present. -/
def detachDebugger (sessions : List Nat) (tabId : Nat) : List Nat :=
  if tabId ∈ sessions then sessions.erase tabId else sessions

/-! ## Step state machine, ledger and cursor (content.js `runAutomation`)

The four checkout steps interact with the page; for the ledger/cursor and
reentrancy claims only their combined verdict matters, so a run's
page-dependent data is abstracted into a `RunEnv`.  The storage blobs
`adobeAutoSettings` / `adobeAutoResults` become the `Storage` record and
the module-level `state` object becomes `Session`. -/

/-- The step verdict stored in a result's `success` field: `true`,
`'partial'` (card data only surfaced for manual entry), or `false`. -/
inductive Outcome where
  | success
  | manualEntry
  | failed
deriving DecidableEq, Repr

/-- One entry of the run ledger `adobeAutoResults`. -/
structure RunResult where
  email : List Char
  cardSuffix : List Char
  timestamp : Nat
  outcome : Outcome
deriving DecidableEq, Repr

/-- The persisted `adobeAutoSettings` blob. -/
structure Settings where
  bin : List Char
  emailList : List Char
  firstName : List Char
  lastName : List Char
  postalCode : List Char
  currentEmailIndex : Nat
deriving DecidableEq, Repr

/-- The whole `chrome.storage.local` contents used by the automation. -/
structure Storage where
  settings : Settings
  results : List RunResult
deriving DecidableEq, Repr

/-- The module-level `state` object of the content script.  `pending` holds
the email index captured by an in-flight `runAutomation` call (a closure
variable in the source); it is `none` when no run is active. -/
structure Session where
  isRunning : Bool
  currentStep : Nat
  currentEmail : Option (List Char)
  pending : Option Nat
deriving DecidableEq, Repr

/-- Combined script + storage state. -/
structure SysState where
  sess : Session
  storage : Storage
deriving DecidableEq, Repr

/-- Page-dependent data of one run: the overall verdict, the generated
card's last four digits, the ISO timestamp (as a number), and the step
counter left by the final status update. -/
structure RunEnv where
  outcome : Outcome
  cardSuffix : List Char
  timestamp : Nat
  finalStep : Nat
deriving DecidableEq, Repr

/-- `settings.emailList.split('\n').filter(e => e.trim())`: the segments
whose trimmed form is non-empty (the untrimmed segments are kept). -/
def splitEmails (s : List Char) : List (List Char) :=
  (s.splitOn '\n').filter (fun e => !(trimChars e).isEmpty)

/-- Recording a run result: `results.unshift(result)` then
`results.slice(0, 100)`. -/
def recordResult (r : RunResult) (l : List RunResult) : List RunResult :=
  (r :: l).take 100

/-- `runAutomation` as one completed call: reentrancy guard, empty-list
rejection, email selection at `cursor mod N`, and on completion (whatever
the verdict) one ledger insertion and the cursor bump
`currentEmailIndex + 1`.  The returned flag tells whether a run executed. -/
def runAutomation (env : RunEnv) (s : SysState) : SysState × Bool :=
  if s.sess.isRunning then (s, false)
  else
    let emails := splitEmails s.storage.settings.emailList
    if emails.isEmpty then
      ({ s with sess := { s.sess with isRunning := false, currentStep := 0 } }, false)
    else
      let idx := s.storage.settings.currentEmailIndex
      let email := emails.getD (idx % emails.length) []
      let result : RunResult :=
        { email := email, cardSuffix := env.cardSuffix,
          timestamp := env.timestamp, outcome := env.outcome }
      ({ sess := { isRunning := false, currentStep := env.finalStep,
                   currentEmail := some email, pending := s.sess.pending }
         storage := { settings := { s.storage.settings with currentEmailIndex := idx + 1 }
                      results := recordResult result s.storage.results } }, true)

/-- The prefix of `runAutomation` executed synchronously when a start
request arrives: guard, settings read, empty-list rejection, and email
selection.  On acceptance the session becomes running with the selected
index captured in `pending`. -/
def startRequest (s : SysState) : SysState × Bool :=
  if s.sess.isRunning then (s, false)
  else
    let emails := splitEmails s.storage.settings.emailList
    if emails.isEmpty then
      ({ s with sess := { s.sess with isRunning := false, currentStep := 0 } }, false)
    else
      let idx := s.storage.settings.currentEmailIndex
      let email := emails.getD (idx % emails.length) []
      ({ s with
          sess := { s.sess with
                    isRunning := true, currentEmail := some email, pending := some idx } },
       true)

/-- The suffix of `runAutomation` for an accepted run: record the result,
bump the cursor, and return to idle.  A state with no pending run is left
unchanged. -/
def completeRun (env : RunEnv) (s : SysState) : SysState :=
  match s.sess.pending with
  | none => s
  | some idx =>
    let emails := splitEmails s.storage.settings.emailList
    let email := emails.getD (idx % emails.length) []
    let result : RunResult :=
      { email := email, cardSuffix := env.cardSuffix,
        timestamp := env.timestamp, outcome := env.outcome }
    { sess := { isRunning := false, currentStep := env.finalStep,
                currentEmail := s.sess.currentEmail, pending := none }
      storage := { settings := { s.storage.settings with currentEmailIndex := idx + 1 }
                   results := recordResult result s.storage.results } }

/-- Two start requests back-to-back before the first run completes, then
the completion of whichever run started. -/
def doubleStart (env : RunEnv) (s : SysState) : SysState :=
  completeRun env (startRequest (startRequest s).1).1

/-- A sequence of completed runs. -/
def runMany (envs : List RunEnv) (s : SysState) : SysState :=
  match envs with
  | [] => s
  | e :: rest => runMany rest (runAutomation e s).1

/-- Response to a `STOP_AUTOMATION` message. -/
structure StopResponse where
  success : Bool
deriving DecidableEq, Repr

/-- The `STOP_AUTOMATION` branch of the message listener: clear the running
flag, set the status line (step 0), reply `{success:true}`.  Nothing else
is signalled. -/
def stopMessage (sess : Session) : Session × StopResponse :=
  ({ sess with isRunning := false, currentStep := 0 }, { success := true })

/-! ## Step 3 of the state machine (content.js `stepFillPayment`)

The DOM interactions of step 3 are abstracted into a `PayEnv` describing,
for each sub-field, whether it was found and whether the injected value
stuck; the control flow and the status strings follow the source. -/

/-- How the card-number fill went: found directly (with the fill verdict),
found inside an accessible iframe, iframe accessible but without the input,
iframe inaccessible (cross-origin), or a thrown access error. -/
inductive CardAccess where
  | direct (ok : Bool)
  | iframeInput (ok : Bool)
  | iframeNoInput
  | blocked
  | throws
deriving DecidableEq, Repr

/-- Environment of one `stepFillPayment` call.  For the four later fields,
`none` means `waitForElement` failed (field skipped) and `some b` means the
field was found and the fill returned `b`. -/
structure PayEnv where
  panelOk : Bool
  card : CardAccess
  expiry : Option Bool
  firstName : Option Bool
  lastName : Option Bool
  postal : Option Bool
deriving DecidableEq, Repr

/-- The names pushed onto `failedFields` by the card-number section. -/
def cardFailures : CardAccess → List String
  | .direct true => []
  | .direct false => ["Card number"]
  | .iframeInput true => []
  | .iframeInput false => ["Card number (iframe)"]
  | .iframeNoInput => []
  | .blocked => ["Card number (iframe blocked)"]
  | .throws => ["Card number"]

/-- The name pushed onto `failedFields` by one of the later field sections:
only a found-but-unfilled field records a failure. -/
def fieldFailure (name : String) : Option Bool → List String
  | some false => [name]
  | _ => []

/-- The fields `stepFillPayment` touches, in source order. -/
inductive FieldName where
  | card | expiry | firstName | lastName | postalCode
deriving DecidableEq, Repr

/-- What one `stepFillPayment` call reports: the returned verdict, the
final status message, the accumulated `failedFields`, and (for the
statement of sequencing properties) the sub-fields it attempted, in order. -/
structure StepReport where
  ok : Bool
  status : String
  failed : List String
  attempted : List FieldName
deriving DecidableEq, Repr

/-- `stepFillPayment` (content.js variant with `failedFields`): after the
payment panel appears, attempt the card number (its own try/catch), then
expiry, first name, last name and postal code unconditionally; if any name
was recorded, report `Failed: <joined names>` and `false`, else success. -/
def stepFillPayment (env : PayEnv) : StepReport :=
  if env.panelOk then
    let failed := cardFailures env.card
      ++ fieldFailure "Expiry" env.expiry
      ++ fieldFailure "First name" env.firstName
      ++ fieldFailure "Last name" env.lastName
      ++ fieldFailure "Postal code" env.postal
    let attempted : List FieldName :=
      [.card, .expiry, .firstName, .lastName, .postalCode]
    if failed.isEmpty then
      { ok := true, status := "Payment info filled ✓", failed := [],
        attempted := attempted }
    else
      { ok := false, status := "Failed: " ++ String.intercalate ", " failed,
        failed := failed, attempted := attempted }
  else
    { ok := false,
      status := "Error: Element not found: [data-testid=checkout-wizard-step-panel-payment].CheckoutWizardStep__active__YuSs3",
      failed := [], attempted := [] }

/-! ## Concrete witness inputs -/

/-- An idle session with a single configured identifier `a@x` and cursor 0. -/
def sampleIdle : SysState :=
  { sess := { isRunning := false, currentStep := 0, currentEmail := none, pending := none }
    storage := { settings := { bin := [], emailList := "a@x".data, firstName := [],
                               lastName := [], postalCode := [], currentEmailIndex := 0 }
                 results := [] } }

/-- A run environment for a fully successful run. -/
def sampleEnv : RunEnv :=
  { outcome := .success, cardSuffix := ['1', '2', '3', '4'], timestamp := 5, finalStep := 4 }

/-- The same state as `sampleIdle` but with a run already active. -/
def sampleRunning : SysState :=
  { sampleIdle with sess := { sampleIdle.sess with isRunning := true } }

/-- Scenario A of the specification: three identifiers, cursor 0. -/
def scenarioA : SysState :=
  { sess := { isRunning := false, currentStep := 0, currentEmail := none, pending := none }
    storage := { settings := { bin := [], emailList := "a@x\nb@x\nc@x".data, firstName := [],
                               lastName := [], postalCode := [], currentEmailIndex := 0 }
                 results := [] } }

/-- Three completed runs with distinct outcomes. -/
def scenarioAEnvs : List RunEnv :=
  [{ outcome := .success, cardSuffix := [], timestamp := 1, finalStep := 4 },
   { outcome := .manualEntry, cardSuffix := [], timestamp := 2, finalStep := 4 },
   { outcome := .failed, cardSuffix := [], timestamp := 3, finalStep := 3 }]

/-- A placeholder ledger entry. -/
def dummyResult : RunResult :=
  { email := [], cardSuffix := [], timestamp := 0, outcome := .failed }

/-- A distinguishable fresh ledger entry. -/
def newResult : RunResult :=
  { email := ['n'], cardSuffix := ['9'], timestamp := 7, outcome := .success }

/-- Scenario C of the specification: a root frame with two child frames. -/
def scenarioCTree : FrameTree :=
  .node { id := 1 } [.node { id := 2 } [], .node { id := 3 } []]

/-- The fill script finds the control only in frame 2. -/
def scenarioCEval : Nat → EvalOutcome :=
  fun n => if n = 2 then .found "4111" else .notFound

/-- Step-3 environment where the card field is behind a blocked iframe and
every other field fills fine. -/
def blockedCardEnv : PayEnv :=
  { panelOk := true, card := .blocked, expiry := some true,
    firstName := some true, lastName := some true, postal := some true }

/-- The default BIN pattern `453789xxxxxxxxxx`. -/
def witnessPattern : List Char :=
  ['4', '5', '3', '7', '8', '9', 'x', 'x', 'x', 'x', 'x', 'x', 'x', 'x', 'x', 'x']

/-- A fully fixed BIN input with an explicit expiry. -/
def fixedPattern : List Char := "4537890000000000|12|2026".data

set_option autoImplicit false

/-! ## Shared lemmas -/

/-- A non-nil list is not `isEmpty`. -/
lemma isEmpty_false_of_ne_nil {α : Type} {l : List α} (h : l ≠ []) : l.isEmpty = false := by
  cases l with
  | nil => exact absurd rfl h
  | cons a t => rfl

/-- Field-level description of an accepted, completed `runAutomation` call:
the cursor is bumped by one (no reduction mod the list length), the session
returns to idle, the identifier list is untouched, the consumed identifier
is the one at `cursor mod N`, and exactly one result is recorded. -/
lemma runAutomation_fields (env : RunEnv) (s : SysState)
    (h1 : s.sess.isRunning = false)
    (h2 : splitEmails s.storage.settings.emailList ≠ []) :
    (runAutomation env s).1.storage.settings.currentEmailIndex
        = s.storage.settings.currentEmailIndex + 1
    ∧ (runAutomation env s).1.sess.isRunning = false
    ∧ (runAutomation env s).1.storage.settings.emailList = s.storage.settings.emailList
    ∧ (runAutomation env s).1.sess.currentEmail
        = some ((splitEmails s.storage.settings.emailList).getD
            (s.storage.settings.currentEmailIndex
              % (splitEmails s.storage.settings.emailList).length) [])
    ∧ (runAutomation env s).1.storage.results
        = recordResult
            { email := (splitEmails s.storage.settings.emailList).getD
                (s.storage.settings.currentEmailIndex
                  % (splitEmails s.storage.settings.emailList).length) []
              cardSuffix := env.cardSuffix, timestamp := env.timestamp,
              outcome := env.outcome } s.storage.results
    ∧ (runAutomation env s).2 = true := by
  have h2' := isEmpty_false_of_ne_nil h2
  simp [runAutomation, h1, h2']

/-! ## Claim C1 -/

/-- Claim C1, counterexample: with the single-identifier list `[a@x]`
(`N = 1`) and cursor 0, a completed run persists cursor 1, not
`(0 + 1) mod 1 = 0`; the stored cursor is not reduced mod the list
length. -/
theorem cursorMod_counterexample :
    (runAutomation sampleEnv sampleIdle).1.storage.settings.currentEmailIndex
      ≠ (sampleIdle.storage.settings.currentEmailIndex + 1)
          % (splitEmails sampleIdle.storage.settings.emailList).length := by
  decide

/-- Claim C1, amended: after every completed run, whatever its outcome, the
persisted cursor becomes `cursor + 1` (without reduction mod `N`), so after
`K` completed runs the stored cursor is `cursor_before + K`; the identifier
consumed by the next run is still `list[(cursor_before + K) mod N]`, so
selection rotates round-robin. -/
theorem cursor_advances (envs : List RunEnv) (s : SysState)
    (h1 : s.sess.isRunning = false)
    (h2 : splitEmails s.storage.settings.emailList ≠ []) :
    (runMany envs s).storage.settings.currentEmailIndex
        = s.storage.settings.currentEmailIndex + envs.length
    ∧ (runMany envs s).sess.isRunning = false
    ∧ (runMany envs s).storage.settings.emailList = s.storage.settings.emailList
    ∧ ∀ env : RunEnv,
        (runAutomation env (runMany envs s)).1.sess.currentEmail
          = some ((splitEmails s.storage.settings.emailList).getD
              ((s.storage.settings.currentEmailIndex + envs.length)
                % (splitEmails s.storage.settings.emailList).length) []) := by
  induction envs generalizing s with
  | nil =>
    refine ⟨by simp [runMany], by simp [runMany, h1], by simp [runMany], ?_⟩
    intro env
    have h := runAutomation_fields env s h1 h2
    simpa [runMany] using h.2.2.2.1
  | cons e rest ih =>
    have h := runAutomation_fields e s h1 h2
    obtain ⟨hc, hr, hl, _, _, _⟩ := h
    have h2'' : splitEmails (runAutomation e s).1.storage.settings.emailList ≠ [] := by
      rw [hl]; exact h2
    have := ih (runAutomation e s).1 hr h2''
    obtain ⟨ihc, ihr, ihl, ihe⟩ := this
    refine ⟨?_, ?_, ?_, ?_⟩
    · show (runMany rest (runAutomation e s).1).storage.settings.currentEmailIndex = _
      rw [ihc, hc]; simp only [List.length_cons]; omega
    · exact ihr
    · show (runMany rest (runAutomation e s).1).storage.settings.emailList = _
      rw [ihl, hl]
    · intro env
      have := ihe env
      rw [hl, hc] at this
      show (runAutomation env (runMany rest (runAutomation e s).1)).1.sess.currentEmail = _
      rw [this]
      simp only [List.length_cons]
      have harith : s.storage.settings.currentEmailIndex + 1 + rest.length
          = s.storage.settings.currentEmailIndex + (rest.length + 1) := by omega
      rw [harith]

/-- Witness for `cursor_advances` at Scenario A: three identifiers, cursor
0, three completed runs of mixed outcomes. -/
theorem cursor_advances_witness :
    scenarioA.sess.isRunning = false
    ∧ splitEmails scenarioA.storage.settings.emailList ≠ []
    ∧ ((runMany scenarioAEnvs scenarioA).storage.settings.currentEmailIndex
          = scenarioA.storage.settings.currentEmailIndex + scenarioAEnvs.length
        ∧ (runMany scenarioAEnvs scenarioA).sess.isRunning = false
        ∧ (runMany scenarioAEnvs scenarioA).storage.settings.emailList
            = scenarioA.storage.settings.emailList
        ∧ ∀ env : RunEnv,
            (runAutomation env (runMany scenarioAEnvs scenarioA)).1.sess.currentEmail
              = some ((splitEmails scenarioA.storage.settings.emailList).getD
                  ((scenarioA.storage.settings.currentEmailIndex + scenarioAEnvs.length)
                    % (splitEmails scenarioA.storage.settings.emailList).length) [])) :=
  ⟨rfl, by decide, cursor_advances scenarioAEnvs scenarioA rfl (by decide)⟩

/-! ## Claim C2 -/

/-- Claim C2: recording a run result prepends it (the new entry is first),
the stored ledger never exceeds 100 entries, and inserting into a ledger of
exactly 100 entries drops the oldest (last) entry. -/
theorem ledger_record_spec (r : RunResult) (l : List RunResult) :
    (recordResult r l).length ≤ 100
    ∧ (recordResult r l).head? = some r
    ∧ (l.length = 100 → recordResult r l = r :: l.dropLast) := by
  refine ⟨by simp [recordResult], ?_, ?_⟩
  · show ((r :: l).take (99 + 1)).head? = some r
    rw [List.take_succ_cons]
    rfl
  · intro h
    show (r :: l).take (99 + 1) = r :: l.dropLast
    rw [List.take_succ_cons, List.dropLast_eq_take, h]

/-- Witness for `ledger_record_spec` on a full ledger of 100 entries. -/
theorem ledger_record_witness :
    (List.replicate 100 dummyResult).length = 100
    ∧ recordResult newResult (List.replicate 100 dummyResult)
        = newResult :: (List.replicate 100 dummyResult).dropLast := by
  exact ⟨by simp, (ledger_record_spec _ _).2.2 (by simp)⟩

/-! ## Claim C3 -/

/-- Claim C3: a start request while a run is active is a complete no-op
(no step, no ledger entry, no cursor change); a start request with an empty
identifier list leaves the storage untouched and runs no step; and two
back-to-back start requests before the first run completes behave exactly
like a single run, recording exactly one result. -/
theorem startGuard_spec (env : RunEnv) (s : SysState) :
    (s.sess.isRunning = true →
        runAutomation env s = (s, false) ∧ startRequest s = (s, false))
    ∧ (s.sess.isRunning = false → splitEmails s.storage.settings.emailList = [] →
        (runAutomation env s).1.storage = s.storage ∧ (runAutomation env s).2 = false
        ∧ (startRequest s).1.storage = s.storage ∧ (startRequest s).2 = false)
    ∧ (s.sess.isRunning = false → s.sess.pending = none →
        splitEmails s.storage.settings.emailList ≠ [] →
        (startRequest (startRequest s).1).2 = false
        ∧ (startRequest (startRequest s).1).1 = (startRequest s).1
        ∧ doubleStart env s = (runAutomation env s).1
        ∧ (doubleStart env s).storage.results
            = recordResult
                { email := (splitEmails s.storage.settings.emailList).getD
                    (s.storage.settings.currentEmailIndex
                      % (splitEmails s.storage.settings.emailList).length) []
                  cardSuffix := env.cardSuffix, timestamp := env.timestamp,
                  outcome := env.outcome } s.storage.results) := by
  refine ⟨?_, ?_, ?_⟩
  · intro h
    constructor <;> simp [runAutomation, startRequest, h]
  · intro h1 h2
    have h2' : (splitEmails s.storage.settings.emailList).isEmpty = true := by
      rw [h2]; rfl
    refine ⟨?_, ?_, ?_, ?_⟩ <;> simp [runAutomation, startRequest, h1, h2']
  · intro h1 hp h2
    have h2' := isEmpty_false_of_ne_nil h2
    have hstart : startRequest s
        = ({ s with
              sess := { s.sess with
                        isRunning := true
                        currentEmail := some ((splitEmails s.storage.settings.emailList).getD
                          (s.storage.settings.currentEmailIndex
                            % (splitEmails s.storage.settings.emailList).length) [])
                        pending := some s.storage.settings.currentEmailIndex } }, true) := by
      simp [startRequest, h1, h2']
    have hsecond : startRequest (startRequest s).1 = ((startRequest s).1, false) := by
      rw [hstart]
      simp [startRequest]
    refine ⟨?_, ?_, ?_, ?_⟩
    · rw [hsecond]
    · rw [hsecond]
    · show completeRun env (startRequest (startRequest s).1).1 = _
      rw [hsecond, hstart]
      simp [completeRun, runAutomation, h1, h2', hp]
    · show (completeRun env (startRequest (startRequest s).1).1).storage.results = _
      rw [hsecond, hstart]
      simp [completeRun, recordResult]

/-- Witness for `startGuard_spec`: a second start against an already
running session changes nothing and starts nothing. -/
theorem startGuard_witness :
    sampleRunning.sess.isRunning = true
    ∧ (runAutomation sampleEnv sampleRunning = (sampleRunning, false)
        ∧ startRequest sampleRunning = (sampleRunning, false)) :=
  ⟨rfl, (startGuard_spec sampleEnv sampleRunning).1 rfl⟩

/-! ## Claim C4 -/

/-- First-found step lemma for the frame loop: if the control is absent
from every frame, the loop visits every frame in order and returns the
structured not-found failure. -/
lemma tryFrames_none (eval : Nat → EvalOutcome) (fs : List Frame)
    (h : ∀ f ∈ fs, isFound (eval f.id) = false) :
    tryFrames eval fs
      = ({ success := false, frameId := none, value := none,
           error := some "Input not found in any frame" }, fs.map Frame.id) := by
  induction fs with
  | nil => rfl
  | cons f rest ih =>
    have hf := h f (by simp)
    have hrest : ∀ g ∈ rest, isFound (eval g.id) = false := fun g hg => h g (by simp [hg])
    cases he : eval f.id with
    | found v => rw [he] at hf; simp [isFound] at hf
    | evalError m => simp [tryFrames, he, ih hrest]
    | notFound => simp [tryFrames, he, ih hrest]

/-- First-found step lemma for the frame loop: if frame `i` is the first
frame whose evaluation finds the control, the loop returns success with
that frame's id and attempts exactly the first `i + 1` frames. -/
lemma tryFrames_found (eval : Nat → EvalOutcome) (fs : List Frame) (i : Nat) (v : String)
    (hi : i < fs.length)
    (hfound : eval ((fs.map Frame.id).getD i 0) = .found v)
    (hmin : ∀ j, j < i → isFound (eval ((fs.map Frame.id).getD j 0)) = false) :
    tryFrames eval fs
      = ({ success := true, frameId := some ((fs.map Frame.id).getD i 0),
           value := some v, error := none }, (fs.map Frame.id).take (i + 1)) := by
  induction fs generalizing i with
  | nil => simp at hi
  | cons f rest ih =>
    cases i with
    | zero =>
      have hf : eval f.id = .found v := by simpa using hfound
      simp [tryFrames, hf]
    | succ n =>
      have h0 : isFound (eval f.id) = false := by simpa using hmin 0 (Nat.succ_pos _)
      have hfound' : eval ((rest.map Frame.id).getD n 0) = .found v := by simpa using hfound
      have hmin' : ∀ j, j < n → isFound (eval ((rest.map Frame.id).getD j 0)) = false := by
        intro j hj
        simpa using hmin (j + 1) (by omega)
      have hi' : n < rest.length := by simpa using hi
      cases he : eval f.id with
      | found v2 => rw [he] at h0; simp [isFound] at h0
      | evalError m =>
        simp [tryFrames, he, ih n hi' hfound' hmin', List.take_succ_cons]
      | notFound =>
        simp [tryFrames, he, ih n hi' hfound' hmin', List.take_succ_cons]

/-- Claim C4: `getAllFrames` flattens the frame tree depth-first and
root-first; the fill attempts frames strictly in that order, stopping with
a success that carries the frame id at the first frame where the control is
found and never attempting a later frame; when no frame yields the control
(or the attach fails) the result is a structured `{success := false}` value
rather than an exception. -/
theorem fillFrames_spec (eval : Nat → EvalOutcome) (t : FrameTree) :
    (∀ i v, i < (getAllFrames t).length →
        eval (((getAllFrames t).map Frame.id).getD i 0) = .found v →
        (∀ j, j < i → isFound (eval (((getAllFrames t).map Frame.id).getD j 0)) = false) →
        fillIframeField eval t true
          = ({ success := true,
               frameId := some (((getAllFrames t).map Frame.id).getD i 0),
               value := some v, error := none },
             ((getAllFrames t).map Frame.id).take (i + 1)))
    ∧ ((∀ f ∈ getAllFrames t, isFound (eval f.id) = false) →
        fillIframeField eval t true
          = ({ success := false, frameId := none, value := none,
               error := some "Input not found in any frame" },
             (getAllFrames t).map Frame.id))
    ∧ (∀ fr cs, getAllFrames (.node fr cs) = fr :: getAllFramesList cs)
    ∧ (∀ c ts, getAllFramesList (c :: ts) = getAllFrames c ++ getAllFramesList ts)
    ∧ fillIframeField eval t false
        = ({ success := false, frameId := none, value := none,
             error := some "Failed to attach debugger" }, []) := by
  refine ⟨?_, ?_, fun fr cs => rfl, fun c ts => rfl, rfl⟩
  · intro i v hi hfound hmin
    show tryFrames eval (getAllFrames t) = _
    exact tryFrames_found eval (getAllFrames t) i v hi hfound hmin
  · intro h
    show tryFrames eval (getAllFrames t) = _
    exact tryFrames_none eval (getAllFrames t) h

/-- Witness for `fillFrames_spec` at Scenario C: three frames, the control
exists only in the second; frame 1 is attempted, frame 2 succeeds, frame 3
is never attempted. -/
theorem fillFrames_witness :
    fillIframeField scenarioCEval scenarioCTree true
      = ({ success := true, frameId := some 2, value := some "4111", error := none },
         [1, 2]) :=
  (fillFrames_spec scenarioCEval scenarioCTree).1 1 "4111" (by decide) (by decide)
    (fun j hj => by
      have hj0 : j = 0 := by omega
      rw [hj0]
      rfl)

/-! ## Claim C5 -/

/-- Claim C5: once the payment panel is up, the expiry, first-name,
last-name and postal-code fields are attempted whatever happened to the
card-number fill (including a blocked iframe); when any sub-field failed,
the step reports `false` with the human-readable status
`Failed: <comma-joined failed field names>`, and every card failure name
appears in that list. -/
theorem stepFillPayment_spec (env : PayEnv) (h : env.panelOk = true) :
    (stepFillPayment env).attempted
        = [.card, .expiry, .firstName, .lastName, .postalCode]
    ∧ ((stepFillPayment env).failed ≠ [] →
        (stepFillPayment env).ok = false
        ∧ (stepFillPayment env).status
            = "Failed: " ++ String.intercalate ", " (stepFillPayment env).failed)
    ∧ (cardFailures env.card ≠ [] →
        (stepFillPayment env).failed ≠ []
        ∧ ∀ n ∈ cardFailures env.card, n ∈ (stepFillPayment env).failed) := by
  simp only [stepFillPayment, h, if_true]
  split
  · next hemp =>
    refine ⟨rfl, ?_, ?_⟩
    · intro hne
      exact absurd rfl hne
    · intro hc
      exfalso
      have : cardFailures env.card = [] := by
        rcases List.append_eq_nil.mp (List.isEmpty_iff.mp hemp) with ⟨h4, _⟩
        rcases List.append_eq_nil.mp h4 with ⟨h3, _⟩
        rcases List.append_eq_nil.mp h3 with ⟨h2, _⟩
        rcases List.append_eq_nil.mp h2 with ⟨hcard, _⟩
        exact hcard
      exact hc this
  · next hemp =>
    refine ⟨rfl, fun _ => ⟨rfl, rfl⟩, ?_⟩
    · intro hc
      constructor
      · intro habs
        simp only [List.append_eq_nil] at habs
        exact hc habs.1.1.1.1
      · intro n hn
        simp [hn]

/-- Witness for `stepFillPayment_spec`: the card iframe is blocked, yet all
four later fields are attempted and the status names the card failure. -/
theorem stepFillPayment_witness :
    (stepFillPayment blockedCardEnv).attempted
        = [.card, .expiry, .firstName, .lastName, .postalCode]
    ∧ ((stepFillPayment blockedCardEnv).failed ≠ [] →
        (stepFillPayment blockedCardEnv).ok = false
        ∧ (stepFillPayment blockedCardEnv).status
            = "Failed: " ++ String.intercalate ", " (stepFillPayment blockedCardEnv).failed)
    ∧ (cardFailures blockedCardEnv.card ≠ [] →
        (stepFillPayment blockedCardEnv).failed ≠ []
        ∧ ∀ n ∈ cardFailures blockedCardEnv.card,
            n ∈ (stepFillPayment blockedCardEnv).failed) :=
  stepFillPayment_spec blockedCardEnv rfl

/-! ## Claims C6 and C7: the Waiter -/

/-- An element accepted by the readiness check has a rendered footprint. -/
lemma visibleAt_isSome {dom : Nat → Option Elem} {t : Nat} {e : Elem}
    (h : visibleAt dom t = some e) : e.offsetParent.isSome = true := by
  unfold visibleAt at h
  cases hd : dom t with
  | none => rw [hd] at h; exact absurd h (by simp)
  | some e2 =>
    rw [hd] at h
    by_cases hv : e2.offsetParent.isSome
    · simp only [hv, if_true, Option.some_inj] at h
      rw [← h]
      exact hv
    · simp [hv] at h

/-- The polling loop only resolves with elements that passed the readiness
check. -/
lemma pollLoop_ok (sel : String) (dom : Nat → Option Elem) :
    ∀ ts (e : Elem), pollLoop sel dom ts = .ok e → e.offsetParent.isSome = true := by
  intro ts
  induction ts with
  | nil => intro e h; simp [pollLoop] at h
  | cons t rest ih =>
    intro e h
    unfold pollLoop at h
    cases hv : visibleAt dom t with
    | some e2 =>
      rw [hv] at h
      have he : e2 = e := by simpa using h
      rw [← he]
      exact visibleAt_isSome hv
    | none =>
      rw [hv] at h
      exact ih e h

/-- If no observation is ever ready, the polling loop times out. -/
lemma pollLoop_none (sel : String) (dom : Nat → Option Elem)
    (h : ∀ t, visibleAt dom t = none) :
    ∀ ts, pollLoop sel dom ts = .error ("Element not found: " ++ sel) := by
  intro ts
  induction ts with
  | nil => rfl
  | cons t rest ih => simp [pollLoop, h t, ih]

/-- The observer loop only resolves with elements that passed the readiness
check. -/
lemma obsLoop_ok (sel : String) (dom : Nat → Option Elem) (timeout : Nat) :
    ∀ ts (e : Elem), obsLoop sel dom timeout ts = .ok e → e.offsetParent.isSome = true := by
  intro ts
  induction ts with
  | nil => intro e h; simp [obsLoop] at h
  | cons t rest ih =>
    intro e h
    unfold obsLoop at h
    by_cases ht : t < timeout
    · rw [if_pos ht] at h
      cases hv : visibleAt dom t with
      | some e2 =>
        rw [hv] at h
        have he : e2 = e := by simpa using h
        rw [← he]
        exact visibleAt_isSome hv
      | none =>
        rw [hv] at h
        exact ih e h
    · rw [if_neg ht] at h
      exact absurd h (by simp)

/-- If no observation is ever ready, the observer loop times out. -/
lemma obsLoop_none (sel : String) (dom : Nat → Option Elem) (timeout : Nat)
    (h : ∀ t, visibleAt dom t = none) :
    ∀ ts, obsLoop sel dom timeout ts = .error ("Element not found: " ++ sel) := by
  intro ts
  induction ts with
  | nil => rfl
  | cons t rest ih =>
    unfold obsLoop
    by_cases ht : t < timeout
    · rw [if_pos ht, h t]
      exact ih
    · rw [if_neg ht]

/-- The observer wait resolves with a found element or with its timeout
error; there is no third outcome. -/
lemma obsLoop_cases (sel : String) (dom : Nat → Option Elem) (timeout : Nat) :
    ∀ ts, (∃ e, obsLoop sel dom timeout ts = .ok e)
      ∨ obsLoop sel dom timeout ts = .error ("Element not found: " ++ sel) := by
  intro ts
  induction ts with
  | nil => exact Or.inr rfl
  | cons t rest ih =>
    unfold obsLoop
    by_cases ht : t < timeout
    · rw [if_pos ht]
      cases hv : visibleAt dom t with
      | some e => exact Or.inl ⟨e, rfl⟩
      | none => exact ih
    · rw [if_neg ht]
      exact Or.inr rfl

/-- The condition wait resolves `true` or with its timeout error; there is
no third outcome. -/
lemma condLoop_cases (cond : Nat → Bool) (timeout : Nat) :
    ∀ ts, condLoop cond timeout ts = .ok true
      ∨ condLoop cond timeout ts = .error "Timeout waiting for condition" := by
  intro ts
  induction ts with
  | nil => exact Or.inr rfl
  | cons t rest ih =>
    unfold condLoop
    by_cases ht : t < timeout
    · rw [if_pos ht]
      by_cases hc : cond t
      · rw [if_pos hc]; exact Or.inl rfl
      · rw [if_neg hc]; exact ih
    · rw [if_neg ht]
      exact Or.inr rfl

/-- Claim C6, counterexample: with a stop issued at time 0 while the wait is
in flight, `waitForElement` still runs to its timeout error (and likewise
`waitForCondition`); the result is identical to the run with no stop at
all, so no wait resolves early with a distinct `Cancelled` outcome. -/
theorem waitCancel_counterexample :
    waitForElementObs "input" (fun _ => none) [] 1000 (some 0)
        = .error ("Element not found: " ++ "input")
    ∧ waitForElementObs "input" (fun _ => none) [] 1000 (some 0)
        = waitForElementObs "input" (fun _ => none) [] 1000 none
    ∧ waitForCondition (fun _ => false) [] 1000 (some 0)
        = .error "Timeout waiting for condition" :=
  ⟨rfl, rfl, rfl⟩

/-- Claim C6, amended: the waits have no cancellation path at all — their
result never depends on when (or whether) an external stop arrives, and
their only outcomes are the found element / satisfied condition or the
timeout error; an external stop merely clears the running flag and replies
`{success := true}`. -/
theorem waitCancel_amended (sel : String) (dom : Nat → Option Elem) (cond : Nat → Bool)
    (muts : List Nat) (timeout : Nat) (c1 c2 : Option Nat) (sess : Session) :
    waitForElementObs sel dom muts timeout c1 = waitForElementObs sel dom muts timeout c2
    ∧ waitForCondition cond muts timeout c1 = waitForCondition cond muts timeout c2
    ∧ ((∃ e, waitForElementObs sel dom muts timeout c1 = .ok e)
        ∨ waitForElementObs sel dom muts timeout c1
            = .error ("Element not found: " ++ sel))
    ∧ (waitForCondition cond muts timeout c1 = .ok true
        ∨ waitForCondition cond muts timeout c1 = .error "Timeout waiting for condition")
    ∧ (stopMessage sess).1.isRunning = false
    ∧ (stopMessage sess).2.success = true := by
  refine ⟨rfl, rfl, ?_, ?_, rfl, rfl⟩
  · unfold waitForElementObs
    cases hv : visibleAt dom 0 with
    | some e => exact Or.inl ⟨e, rfl⟩
    | none => exact obsLoop_cases sel dom timeout muts
  · unfold waitForCondition
    by_cases hc : cond 0
    · rw [if_pos hc]; exact Or.inl rfl
    · rw [if_neg hc]; exact condLoop_cases cond timeout muts

/-- Claim C7: neither waiter variant ever resolves with an element whose
`offsetParent` is `null` (no rendered footprint), and when no query result
is ever ready before the deadline both variants fail with the timeout
error instead of returning an element. -/
theorem waitReady_spec (sel : String) (dom : Nat → Option Elem)
    (muts : List Nat) (timeout : Nat) (c : Option Nat) :
    (∀ e, waitForElement sel dom timeout = .ok e → e.offsetParent.isSome = true)
    ∧ (∀ e, waitForElementObs sel dom muts timeout c = .ok e →
        e.offsetParent.isSome = true)
    ∧ ((∀ t, visibleAt dom t = none) →
        waitForElement sel dom timeout = .error ("Element not found: " ++ sel)
        ∧ waitForElementObs sel dom muts timeout c
            = .error ("Element not found: " ++ sel)) := by
  refine ⟨?_, ?_, ?_⟩
  · intro e h
    exact pollLoop_ok sel dom (pollTimes timeout) e h
  · intro e h
    unfold waitForElementObs at h
    cases hv : visibleAt dom 0 with
    | some e2 =>
      rw [hv] at h
      have he : e2 = e := by simpa using h
      rw [← he]
      exact visibleAt_isSome hv
    | none =>
      rw [hv] at h
      exact obsLoop_ok sel dom timeout muts e h
  · intro h
    constructor
    · exact pollLoop_none sel dom h (pollTimes timeout)
    · unfold waitForElementObs
      rw [h 0]
      exact obsLoop_none sel dom timeout h muts

/-- Witness for `waitReady_spec`: an element present in markup at every
instant but with `offsetParent` `null` never satisfies the wait, which ends
in the timeout error. -/
theorem waitReady_witness :
    waitForElement "input" (fun _ => some { eid := 1, offsetParent := none }) 1000
        = .error ("Element not found: " ++ "input")
    ∧ waitForElementObs "input" (fun _ => some { eid := 1, offsetParent := none })
        [250] 1000 none
        = .error ("Element not found: " ++ "input") :=
  (waitReady_spec "input" (fun _ => some { eid := 1, offsetParent := none })
    [250] 1000 none).2.2 (fun t => rfl)

/-! ## Claim C8 -/

/-- Claim C8: attach is idempotent — attaching an already attached target
changes nothing and reports success, attach-after-successful-attach is
observationally a single attach, and a target never holds more than one
session entry. -/
theorem attachDebugger_idem (s : List Nat) (tab : Nat) (b1 b2 : Bool) :
    (tab ∈ s → attachDebugger s tab b1 = (s, .ok ()))
    ∧ ((attachDebugger s tab b1).2 = .ok () →
        attachDebugger (attachDebugger s tab b1).1 tab b2
          = ((attachDebugger s tab b1).1, .ok ()))
    ∧ (s.count tab ≤ 1 → (attachDebugger s tab b1).1.count tab ≤ 1) := by
  by_cases hm : tab ∈ s
  · refine ⟨fun _ => by simp [attachDebugger, hm], ?_, ?_⟩
    · intro _
      simp [attachDebugger, hm]
    · intro hc
      simpa [attachDebugger, hm] using hc
  · refine ⟨fun h => absurd h hm, ?_, ?_⟩
    · intro hok
      cases b1 with
      | false => simp [attachDebugger, hm] at hok
      | true => simp [attachDebugger, hm]
    · intro hc
      cases b1 with
      | false => simpa [attachDebugger, hm] using hc
      | true =>
        have : s.count tab = 0 := List.count_eq_zero.mpr hm
        simp [attachDebugger, hm, List.count_cons, this]

/-- Witness for `attachDebugger_idem`: a fresh successful attach followed by
a second attach is a no-op returning success. -/
theorem attachDebugger_idem_witness :
    (attachDebugger [] 7 true).2 = .ok ()
    ∧ attachDebugger (attachDebugger [] 7 true).1 7 false
        = ((attachDebugger [] 7 true).1, .ok ()) :=
  ⟨rfl, (attachDebugger_idem [] 7 true false).2.1 rfl⟩

/-! ## Claims C9 and C10: the generator -/

/-- Every rendered random digit is a decimal digit character. -/
lemma digitChar_mem (n : Nat) : digitChar n ∈ digitChars := by
  unfold digitChar
  have h : n % 10 < 10 := Nat.mod_lt _ (by norm_num)
  generalize n % 10 = m at h ⊢
  interval_cases m <;> decide

/-- Parsing a rendered digit returns the digit value. -/
lemma charToDigit_digitChar (n : Nat) : charToDigit (digitChar n) = n % 10 := by
  unfold digitChar
  have h : n % 10 < 10 := Nat.mod_lt _ (by norm_num)
  generalize n % 10 = m at h ⊢
  interval_cases m <;> decide

/-- Digit characters satisfy `Char.isDigit`. -/
lemma mem_digitChars_isDigit {c : Char} (h : c ∈ digitChars) : c.isDigit = true := by
  fin_cases h <;> decide

/-- Lower-casing preserves the digit-or-wildcard shape. -/
lemma toLower_digit_or_x {c : Char} (h : c ∈ digitChars ∨ c = 'x' ∨ c = 'X') :
    Char.toLower c ∈ digitChars ∨ Char.toLower c = 'x' := by
  rcases h with h | h | h
  · fin_cases h <;> exact Or.inl (by decide)
  · subst h; exact Or.inr (by decide)
  · subst h; exact Or.inr (by decide)

/-- Wildcard replacement turns a digit-or-wildcard string into digits. -/
lemma replaceWildcards_digits (r : Nat → Nat) :
    ∀ (l : List Char) (k : Nat), (∀ c ∈ l, c ∈ digitChars ∨ c = 'x') →
      ∀ c ∈ (replaceWildcards r l k).1, c ∈ digitChars := by
  intro l
  induction l with
  | nil => intro k h c hc; simp [replaceWildcards] at hc
  | cons a rest ih =>
    intro k h c hc
    by_cases ha : a = 'x'
    · rw [ha] at hc
      simp only [replaceWildcards, if_pos rfl] at hc
      rcases List.mem_cons.mp hc with h1 | h1
      · rw [h1]; exact digitChar_mem _
      · exact ih (k + 1) (fun d hd => h d (by simp [hd])) c h1
    · simp only [replaceWildcards, if_neg ha] at hc
      rcases List.mem_cons.mp hc with h1 | h1
      · rw [h1]
        rcases h a (by simp) with h2 | h2
        · exact h2
        · exact absurd h2 ha
      · exact ih k (fun d hd => h d (by simp [hd])) c h1

/-- Wildcard replacement on a wildcard-free string is the identity and
consumes no randomness. -/
lemma replaceWildcards_id (r : Nat → Nat) :
    ∀ (l : List Char) (k : Nat), (∀ c ∈ l, c ≠ 'x') → replaceWildcards r l k = (l, k) := by
  intro l
  induction l with
  | nil => intro k _; rfl
  | cons a rest ih =>
    intro k h
    have ha : a ≠ 'x' := h a (by simp)
    simp only [replaceWildcards, if_neg ha, ih k (fun d hd => h d (by simp [hd]))]

/-- The padding loop adds exactly its count of characters. -/
lemma padGo_length (r : Nat → Nat) :
    ∀ (n : Nat) (s : List Char) (k : Nat), (padGo r n s k).1.length = s.length + n := by
  intro n
  induction n with
  | zero => intro s k; simp [padGo]
  | succ m ih =>
    intro s k
    simp only [padGo]
    rw [ih]
    simp
    omega

/-- The padding loop preserves digit-only content. -/
lemma padGo_digits (r : Nat → Nat) :
    ∀ (n : Nat) (s : List Char) (k : Nat), (∀ c ∈ s, c ∈ digitChars) →
      ∀ c ∈ (padGo r n s k).1, c ∈ digitChars := by
  intro n
  induction n with
  | zero => intro s k h c hc; simp only [padGo] at hc; exact h c hc
  | succ m ih =>
    intro s k h c hc
    simp only [padGo] at hc
    refine ih (s ++ [digitChar (r k)]) (k + 1) ?_ c hc
    intro d hd
    rcases List.mem_append.mp hd with h1 | h1
    · exact h d h1
    · have : d = digitChar (r k) := by simpa using h1
      rw [this]; exact digitChar_mem _

/-- The Luhn check digit is a single digit. -/
lemma calculateLuhnCheckDigit_lt (s : List Char) : calculateLuhnCheckDigit s < 10 :=
  Nat.mod_lt _ (by norm_num)

/-- Dropping the last element of `l ++ [a]` gives back `l`. -/
lemma dropLast_append_single {α : Type} (l : List α) (a : α) : (l ++ [a]).dropLast = l := by
  simp

/-- The last element of `l ++ [a]` is `a`. -/
lemma getLastD_append_single (l : List Char) (a d : Char) : (l ++ [a]).getLastD d = a := by
  induction l with
  | nil => rfl
  | cons b rest ih =>
    cases rest with
    | nil => rfl
    | cons c rest2 => simpa using ih

/-- A 15-digit payload extended with its own Luhn check digit passes
`validateLuhn`. -/
lemma validateLuhn_append_check (payload : List Char) (hlen : payload.length = 15)
    (hd : ∀ c ∈ payload, c ∈ digitChars) :
    validateLuhn (payload ++ [digitChar (calculateLuhnCheckDigit payload)]) = true := by
  unfold validateLuhn
  have hall : ∀ c ∈ payload ++ [digitChar (calculateLuhnCheckDigit payload)],
      c.isDigit = true := by
    intro c hc
    rcases List.mem_append.mp hc with h1 | h1
    · exact mem_digitChars_isDigit (hd c h1)
    · have : c = digitChar (calculateLuhnCheckDigit payload) := by simpa using h1
      rw [this]
      exact mem_digitChars_isDigit (digitChar_mem _)
  rw [List.filter_eq_self.mpr hall]
  dsimp only
  have hlen2 : (payload ++ [digitChar (calculateLuhnCheckDigit payload)]).length = 16 := by
    simp [hlen]
  rw [hlen2]
  have hcond : (decide (16 < 13) || decide (16 > 19)) = false := by decide
  rw [hcond]
  simp only [Bool.false_eq_true, if_false]
  rw [dropLast_append_single, getLastD_append_single, charToDigit_digitChar,
    Nat.mod_eq_of_lt (calculateLuhnCheckDigit_lt payload)]
  simp

/-- Claim C10: for every pattern of digits and `x`/`X` wildcards and every
outcome of the random digit draws, `generateCardNumber(pattern, 16)` is a
string of exactly 16 decimal digits whose last digit is the Luhn check
digit of the first 15, and `validateLuhn` accepts it. -/
theorem generateCardNumber_spec (r : Nat → Nat) (pattern : List Char) (k : Nat)
    (h : ∀ c ∈ pattern, c ∈ digitChars ∨ c = 'x' ∨ c = 'X') :
    (generateCardNumber r pattern 16 k).1.length = 16
    ∧ (∀ c ∈ (generateCardNumber r pattern 16 k).1, c ∈ digitChars)
    ∧ charToDigit ((generateCardNumber r pattern 16 k).1.getLastD '0')
        = calculateLuhnCheckDigit ((generateCardNumber r pattern 16 k).1.dropLast)
    ∧ validateLuhn (generateCardNumber r pattern 16 k).1 = true := by
  have hmap : ∀ c ∈ pattern.map Char.toLower, c ∈ digitChars ∨ c = 'x' := by
    intro c hc
    rcases List.mem_map.mp hc with ⟨c0, hc0, rfl⟩
    exact toLower_digit_or_x (h c0 hc0)
  have heq : (generateCardNumber r pattern 16 k).1
      = (padGo r (16 - 1 - (replaceWildcards r (pattern.map Char.toLower) k).1.length)
           (replaceWildcards r (pattern.map Char.toLower) k).1
           (replaceWildcards r (pattern.map Char.toLower) k).2).1.take (16 - 1)
        ++ [digitChar (calculateLuhnCheckDigit
            ((padGo r (16 - 1 - (replaceWildcards r (pattern.map Char.toLower) k).1.length)
               (replaceWildcards r (pattern.map Char.toLower) k).1
               (replaceWildcards r (pattern.map Char.toLower) k).2).1.take (16 - 1)))] := rfl
  set payload := (padGo r (16 - 1 - (replaceWildcards r (pattern.map Char.toLower) k).1.length)
      (replaceWildcards r (pattern.map Char.toLower) k).1
      (replaceWildcards r (pattern.map Char.toLower) k).2).1.take (16 - 1) with hpay
  have hrwd : ∀ c ∈ (replaceWildcards r (pattern.map Char.toLower) k).1, c ∈ digitChars :=
    replaceWildcards_digits r _ k hmap
  have hpdlen := padGo_length r
    (16 - 1 - (replaceWildcards r (pattern.map Char.toLower) k).1.length)
    (replaceWildcards r (pattern.map Char.toLower) k).1
    (replaceWildcards r (pattern.map Char.toLower) k).2
  have hpdd := padGo_digits r
    (16 - 1 - (replaceWildcards r (pattern.map Char.toLower) k).1.length)
    (replaceWildcards r (pattern.map Char.toLower) k).1
    (replaceWildcards r (pattern.map Char.toLower) k).2 hrwd
  have hpaylen : payload.length = 15 := by
    rw [hpay, List.length_take]
    omega
  have hpayd : ∀ c ∈ payload, c ∈ digitChars := by
    intro c hc
    rw [hpay] at hc
    exact hpdd c (List.take_subset _ _ hc)
  rw [heq]
  refine ⟨?_, ?_, ?_, ?_⟩
  · simp [hpaylen]
  · intro c hc
    rcases List.mem_append.mp hc with h1 | h1
    · exact hpayd c h1
    · have : c = digitChar (calculateLuhnCheckDigit payload) := by simpa using h1
      rw [this]
      exact digitChar_mem _
  · rw [dropLast_append_single, getLastD_append_single, charToDigit_digitChar,
      Nat.mod_eq_of_lt (calculateLuhnCheckDigit_lt _)]
  · exact validateLuhn_append_check payload hpaylen hpayd

/-- Witness for `generateCardNumber_spec` at the default wildcard pattern
with a constant random stream. -/
theorem generateCardNumber_witness :
    (∀ c ∈ witnessPattern, c ∈ digitChars ∨ c = 'x' ∨ c = 'X')
    ∧ ((generateCardNumber (fun _ => 7) witnessPattern 16 0).1.length = 16
      ∧ (∀ c ∈ (generateCardNumber (fun _ => 7) witnessPattern 16 0).1, c ∈ digitChars)
      ∧ charToDigit ((generateCardNumber (fun _ => 7) witnessPattern 16 0).1.getLastD '0')
          = calculateLuhnCheckDigit
              ((generateCardNumber (fun _ => 7) witnessPattern 16 0).1.dropLast)
      ∧ validateLuhn (generateCardNumber (fun _ => 7) witnessPattern 16 0).1 = true) :=
  ⟨by decide, generateCardNumber_spec (fun _ => 7) witnessPattern 0 (by decide)⟩

/-- Claim C9, counterexample: two invocations of `generate` on the very
same pattern — even one with a fully fixed card number and explicit
expiry — return different card records when the random draws differ
(the verification code differs), so `generate` is not a function of the
pattern alone. -/
theorem generate_not_pure_counterexample :
    generate (fun _ => 0) 2025 10 fixedPattern
      ≠ generate (fun _ => 1) 2025 10 fixedPattern := by
  decide

/-- Claim C9, amended: `generate` is deterministic only in the pattern
together with the random stream (and the clock): when the BIN part has at
least 15 characters, none a wildcard, and the expiry is explicit, two
invocations agree on the card number, brand, expiry and both formatted
fields — while the verification code still consumes random digits and may
differ (see the counterexample). -/
theorem generate_deterministic_components (r1 r2 : Nat → Nat) (cy cm : Nat)
    (input : List Char)
    (hx : ∀ c ∈ (parseBinInput input).bin, Char.toLower c ≠ 'x')
    (hlen : 15 ≤ (parseBinInput input).bin.length)
    (hm : ∃ m, (parseBinInput input).month = some m ∧ m ≠ [])
    (hy : ∃ y, (parseBinInput input).year = some y ∧ y ≠ []) :
    (generate r1 cy cm input).cardNumber = (generate r2 cy cm input).cardNumber
    ∧ (generate r1 cy cm input).cardType = (generate r2 cy cm input).cardType
    ∧ (generate r1 cy cm input).expiry = (generate r2 cy cm input).expiry
    ∧ (generate r1 cy cm input).formattedNumber = (generate r2 cy cm input).formattedNumber
    ∧ (generate r1 cy cm input).formattedExpiry
        = (generate r2 cy cm input).formattedExpiry := by
  obtain ⟨m, hm1, hm2⟩ := hm
  obtain ⟨y, hy1, hy2⟩ := hy
  have hm3 : m.isEmpty = false := isEmpty_false_of_ne_nil hm2
  have hy3 : y.isEmpty = false := isEmpty_false_of_ne_nil hy2
  have key : ∀ r : Nat → Nat,
      generateCardNumber r (parseBinInput input).bin 16 0
        = ((((parseBinInput input).bin.map Char.toLower).take (16 - 1))
            ++ [digitChar (calculateLuhnCheckDigit
                (((parseBinInput input).bin.map Char.toLower).take (16 - 1)))], 0) := by
    intro r
    have hx' : ∀ c ∈ (parseBinInput input).bin.map Char.toLower, c ≠ 'x' := by
      intro c hc
      rcases List.mem_map.mp hc with ⟨c0, hc0, rfl⟩
      exact hx c0 hc0
    have hrw := replaceWildcards_id r ((parseBinInput input).bin.map Char.toLower) 0 hx'
    have hlen0 : 16 - 1 - ((parseBinInput input).bin.map Char.toLower).length = 0 := by
      rw [List.length_map]
      omega
    simp only [generateCardNumber, hrw, hlen0, padGo]
  refine ⟨?_, ?_, ?_, ?_, ?_⟩ <;>
    simp only [generate, key r1, key r2, hm1, hy1, hm3, hy3, Bool.not_false,
      Bool.and_self, if_true]

/-- Witness for `generate_deterministic_components` at the fixed pattern
with explicit expiry and two different random streams. -/
theorem generate_deterministic_witness :
    (∀ c ∈ (parseBinInput fixedPattern).bin, Char.toLower c ≠ 'x')
    ∧ 15 ≤ (parseBinInput fixedPattern).bin.length
    ∧ ((generate (fun _ => 0) 2025 10 fixedPattern).cardNumber
          = (generate (fun _ => 1) 2025 10 fixedPattern).cardNumber
      ∧ (generate (fun _ => 0) 2025 10 fixedPattern).cardType
          = (generate (fun _ => 1) 2025 10 fixedPattern).cardType
      ∧ (generate (fun _ => 0) 2025 10 fixedPattern).expiry
          = (generate (fun _ => 1) 2025 10 fixedPattern).expiry
      ∧ (generate (fun _ => 0) 2025 10 fixedPattern).formattedNumber
          = (generate (fun _ => 1) 2025 10 fixedPattern).formattedNumber
      ∧ (generate (fun _ => 0) 2025 10 fixedPattern).formattedExpiry
          = (generate (fun _ => 1) 2025 10 fixedPattern).formattedExpiry) :=
  ⟨by decide, by decide,
    generate_deterministic_components (fun _ => 0) (fun _ => 1) 2025 10 fixedPattern
      (by decide) (by decide)
      ⟨['1', '2'], by decide, by decide⟩
      ⟨['2', '0', '2', '6'], by decide, by decide⟩⟩
